import Mathlib

/-!
# SDL2_Workbench: shader program loader and frame pipeline

A shallow embedding of `src/Program.cpp` (class `Program`) and of the
frame loop and resize callback of `main.cpp`.

* `std::string` values are lists of characters.
* An input file stream is the list of characters still to be read.
* C++ exceptions are the error side of `Except`.
* The OpenGL driver, the file system and the collaborators of `main.cpp`
  whose code is not part of the sources are answers given as functions of the
  history of calls issued so far; every call is recorded in that history.
-/

namespace SDL2Workbench

/-! ## Strings -/

/-- The value `std::string::npos`: the largest `size_t` (64-bit). -/
def npos : Nat := 2 ^ 64 - 1

/-- C++ exceptions that the embedded code can raise. -/
inductive Exn where
  | out_of_range
  deriving DecidableEq, Repr

/-- First position at which `needle` occurs in `s`, if any. -/
def firstOccurrence (needle : List Char) : List Char → Option Nat
  | [] => if needle.isPrefixOf [] then some 0 else none
  | c :: cs =>
    if needle.isPrefixOf (c :: cs) then some 0
    else (firstOccurrence needle cs).map (· + 1)

/-- The call `s.find(needle)`: the first position of `needle` in `s`, or `npos`. -/
def find (s needle : List Char) : Nat :=
  match firstOccurrence needle s with
  | some pos => pos
  | none => npos

/-- The call `s.replace(pos, len, str)`: raises `std::out_of_range` when
`pos > s.size()`, otherwise replaces the `min(len, size - pos)` characters
starting at `pos` by `str`. -/
def replace (s : List Char) (pos len : Nat) (str : List Char) : Except Exn (List Char) :=
  if pos > s.length then .error .out_of_range
  else .ok (s.take pos ++ str ++ s.drop (pos + min len (s.length - pos)))

/-- The call `s.c_str()` as a reader of the C string sees it: the characters
before the first NUL. -/
def c_str (s : List Char) : List Char :=
  s.takeWhile (fun c => c != Char.ofNat 0)

/-- The call `std::to_string(n)` on an integer. -/
def to_string (n : Int) : List Char := (toString n).toList

/-- Constants `glMajVersion`, `glMinVersion` of main.cpp. -/
def glMajVersion : Int := 4

def glMinVersion : Int := 6

/-- The global `glVersion_str` of main.cpp. -/
def glVersion_str : List Char :=
  to_string glMajVersion ++ to_string glMinVersion ++ "0".toList

/-! ## File streams -/

/-- The file system: the text behind a path, or `none` when the file cannot
be opened. -/
abbrev FileSystem := List Char → Option (List Char)

/-- The call `std::getline(in, temp)` on a stream with `stream` left to read:
`none` when no character can be extracted (the stream then tests false),
otherwise the characters before the next newline and the stream after that
newline (the delimiter is extracted and dropped). -/
def getline (stream : List Char) : Option (List Char × List Char) :=
  match stream with
  | [] => none
  | _ :: _ =>
    some (stream.takeWhile (fun c => c != '\n'), (stream.dropWhile (fun c => c != '\n')).tail)

/-- The loop `while (std::getline(in_file, temp)) src += temp + "\n";`.
Every iteration extracts at least one character, so `fuel = stream.length`
iterations always reach the end of the stream. -/
def readLoop : Nat → List Char → List Char → List Char
  | 0, _, src => src
  | fuel + 1, stream, src =>
    match getline stream with
    | none => src
    | some (temp, rest) => readLoop fuel rest (src ++ (temp ++ "\n".toList))

/-- The value of `src` after the read loop of `loadShaderSource` on a file
with the given text. -/
def readLines (text : List Char) : List Char :=
  readLoop text.length text []

/-- The text of a file with a newline added at the end when it is non-empty
and does not end in one. -/
def terminated (s : List Char) : List Char :=
  if s = [] then []
  else if s.getLast? = some '\n' then s
  else s ++ "\n".toList

/-! ## OpenGL values and calls -/

abbrev GLuint := Nat

abbrev GLint := Int

abbrev GLenum := Nat

abbrev GLsizei := Int

abbrev GLboolean := Bool

/-- A `float`, as its IEEE-754 binary32 bit pattern. No arithmetic is defined
on it: the embedded code only moves these values around. -/
structure GLfloat where
  bits : Nat
  deriving DecidableEq, Repr

structure vec2 where
  x : GLfloat
  y : GLfloat
  deriving DecidableEq, Repr

structure vec3 where
  x : GLfloat
  y : GLfloat
  z : GLfloat
  deriving DecidableEq, Repr

structure vec4 where
  x : GLfloat
  y : GLfloat
  z : GLfloat
  w : GLfloat
  deriving DecidableEq, Repr

/-- Column-major 3x3 matrix, `glm::mat3`. -/
structure mat3 where
  c0 : vec3
  c1 : vec3
  c2 : vec3
  deriving DecidableEq, Repr

/-- Column-major 4x4 matrix, `glm::mat4`. -/
structure mat4 where
  c0 : vec4
  c1 : vec4
  c2 : vec4
  c3 : vec4
  deriving DecidableEq, Repr

def GL_FALSE : GLboolean := false

def GL_FRAGMENT_SHADER : GLenum := 0x8B30

def GL_VERTEX_SHADER : GLenum := 0x8B31

def GL_GEOMETRY_SHADER : GLenum := 0x8DD9

def GL_COMPILE_STATUS : GLenum := 0x8B81

def GL_LINK_STATUS : GLenum := 0x8B82

/-- Conversion of a C++ `int` to `GLuint` (32-bit unsigned). -/
def toGLuint (n : Int) : GLuint := (n % 2 ^ 32).toNat

/-- The OpenGL entry points that Program.cpp calls, with their arguments
(pointer arguments are recorded by the value they point to). -/
inductive GLCall where
  | glCreateShader (type : GLenum)
  | glShaderSource (shader : GLuint) (count : GLsizei) (src : List Char)
  | glCompileShader (shader : GLuint)
  | glGetShaderiv (shader : GLuint) (pname : GLenum)
  | glGetShaderInfoLog (shader : GLuint) (bufSize : GLsizei)
  | glCreateProgram
  | glAttachShader (program : GLuint) (shader : GLuint)
  | glLinkProgram (program : GLuint)
  | glGetProgramiv (program : GLuint) (pname : GLenum)
  | glGetProgramInfoLog (program : GLuint) (bufSize : GLsizei)
  | glUseProgram (program : GLuint)
  | glDeleteShader (shader : GLuint)
  | glDeleteProgram (program : GLuint)
  | glGetUniformLocation (program : GLuint) (name : List Char)
  | glUniform1f (location : GLint) (v0 : GLfloat)
  | glUniform1i (location : GLint) (v0 : GLint)
  | glUniform2fv (location : GLint) (count : GLsizei) (value : vec2)
  | glUniform3fv (location : GLint) (count : GLsizei) (value : vec3)
  | glUniform4fv (location : GLint) (count : GLsizei) (value : vec4)
  | glUniformMatrix3fv (location : GLint) (count : GLsizei) (transpose : GLboolean) (value : mat3)
  | glUniformMatrix4fv (location : GLint) (count : GLsizei) (transpose : GLboolean) (value : mat4)
  deriving DecidableEq, Repr

/-- The answers of the OpenGL driver, each a function of the calls issued
before the one being answered. -/
structure Driver where
  /-- Handle returned by `glCreateShader`. -/
  createShader : List GLCall → GLenum → GLuint
  /-- Value left in `success` by `glGetShaderiv`. -/
  getShaderiv : List GLCall → GLuint → GLenum → GLint
  /-- C string left in `infoLog` by `glGetShaderInfoLog`. -/
  getShaderInfoLog : List GLCall → GLuint → GLsizei → List Char
  /-- Handle returned by `glCreateProgram`. -/
  createProgram : List GLCall → GLuint
  /-- Value left in `success` by `glGetProgramiv`. -/
  getProgramiv : List GLCall → GLuint → GLenum → GLint
  /-- C string left in `infoLog` by `glGetProgramInfoLog`. -/
  getProgramInfoLog : List GLCall → GLuint → GLsizei → List Char
  /-- Location returned by `glGetUniformLocation`. -/
  getUniformLocation : List GLCall → GLuint → List Char → GLint
  /-- Whether `glUseProgram` installs the given non-zero program. -/
  installs : List GLCall → GLuint → Bool

/-- What the process has done so far: the OpenGL calls issued, the text
written to standard output, and the program object currently bound. -/
structure GLState where
  calls : List GLCall
  out : List Char
  currentProgram : GLuint
  deriving DecidableEq, Repr

/-- Record one call. -/
def GLState.issue (st : GLState) (c : GLCall) : GLState :=
  { st with calls := st.calls ++ [c] }

/-- The statement `std::cout << text`. -/
def GLState.cout (st : GLState) (text : List Char) : GLState :=
  { st with out := st.out ++ text }

def glCreateShader (d : Driver) (type : GLenum) (st : GLState) : GLuint × GLState :=
  (d.createShader st.calls type, st.issue (.glCreateShader type))

def glGetShaderiv (d : Driver) (shader : GLuint) (pname : GLenum) (st : GLState) :
    GLint × GLState :=
  (d.getShaderiv st.calls shader pname, st.issue (.glGetShaderiv shader pname))

def glGetShaderInfoLog (d : Driver) (shader : GLuint) (bufSize : GLsizei) (st : GLState) :
    List Char × GLState :=
  (d.getShaderInfoLog st.calls shader bufSize, st.issue (.glGetShaderInfoLog shader bufSize))

def glCreateProgram (d : Driver) (st : GLState) : GLuint × GLState :=
  (d.createProgram st.calls, st.issue .glCreateProgram)

def glGetProgramiv (d : Driver) (program : GLuint) (pname : GLenum) (st : GLState) :
    GLint × GLState :=
  (d.getProgramiv st.calls program pname, st.issue (.glGetProgramiv program pname))

def glGetProgramInfoLog (d : Driver) (program : GLuint) (bufSize : GLsizei) (st : GLState) :
    List Char × GLState :=
  (d.getProgramInfoLog st.calls program bufSize, st.issue (.glGetProgramInfoLog program bufSize))

def glGetUniformLocation (d : Driver) (program : GLuint) (name : List Char) (st : GLState) :
    GLint × GLState :=
  (d.getUniformLocation st.calls program name, st.issue (.glGetUniformLocation program name))

/-- The call `glUseProgram(program)`: zero unbinds; a non-zero program becomes
current when the driver installs it, otherwise the binding is unchanged. -/
def glUseProgram (d : Driver) (program : GLuint) (st : GLState) : GLState :=
  { calls := st.calls ++ [.glUseProgram program]
    out := st.out
    currentProgram :=
      if program = 0 then 0
      else if d.installs st.calls program then program
      else st.currentProgram }

/-! ## Program.cpp -/

/-- Data members of class `Program`. -/
structure Program where
  id : GLuint
  versionMaj : Int
  versionMin : Int
  glsl_version : List Char
  deriving DecidableEq, Repr

namespace Program

/-! Every method takes the object as `self`; the non-const methods that return
`void` give back the object as they leave it, next to the new state. -/

/-- The destructor `Program::~Program`. -/
def dtor (self : Program) (st : GLState) : GLState :=
  st.issue (.glDeleteProgram self.id)

/-- The method `Program::use`. -/
def use (self : Program) (d : Driver) (st : GLState) : Program × GLState :=
  (self, glUseProgram d self.id st)

/-- The method `Program::stopUsing`. -/
def stopUsing (self : Program) (d : Driver) (st : GLState) : Program × GLState :=
  (self, glUseProgram d 0 st)

/-- The method `Program::setVec3f`. -/
def setVec3f (self : Program) (d : Driver) (value : vec3) (name : List Char) (st : GLState) :
    Program × GLState :=
  let (self1, st1) := self.use d st
  let (loc, st2) := glGetUniformLocation d self1.id name st1
  let st3 := st2.issue (.glUniform3fv loc 1 value)
  self1.stopUsing d st3

/-- The method `Program::setVec2f`. -/
def setVec2f (self : Program) (d : Driver) (value : vec2) (name : List Char) (st : GLState) :
    Program × GLState :=
  let (self1, st1) := self.use d st
  let (loc, st2) := glGetUniformLocation d self1.id name st1
  let st3 := st2.issue (.glUniform2fv loc 1 value)
  self1.stopUsing d st3

/-- The method `Program::setVec4f`. -/
def setVec4f (self : Program) (d : Driver) (value : vec4) (name : List Char) (st : GLState) :
    Program × GLState :=
  let (self1, st1) := self.use d st
  let (loc, st2) := glGetUniformLocation d self1.id name st1
  let st3 := st2.issue (.glUniform4fv loc 1 value)
  self1.stopUsing d st3

/-- The method `Program::setMat3fv`. -/
def setMat3fv (self : Program) (d : Driver) (value : mat3) (name : List Char)
    (transpose : GLboolean) (st : GLState) : Program × GLState :=
  let (self1, st1) := self.use d st
  let (loc, st2) := glGetUniformLocation d self1.id name st1
  let st3 := st2.issue (.glUniformMatrix3fv loc 1 transpose value)
  self1.stopUsing d st3

/-- The method `Program::setMat4fv`. -/
def setMat4fv (self : Program) (d : Driver) (value : mat4) (name : List Char)
    (transpose : GLboolean) (st : GLState) : Program × GLState :=
  let (self1, st1) := self.use d st
  let (loc, st2) := glGetUniformLocation d self1.id name st1
  let st3 := st2.issue (.glUniformMatrix4fv loc 1 transpose value)
  self1.stopUsing d st3

/-- The method `Program::set1f`. -/
def set1f (self : Program) (d : Driver) (value : GLfloat) (name : List Char) (st : GLState) :
    Program × GLState :=
  let (self1, st1) := self.use d st
  let (loc, st2) := glGetUniformLocation d self1.id name st1
  let st3 := st2.issue (.glUniform1f loc value)
  self1.stopUsing d st3

/-- The method `Program::set1i`. -/
def set1i (self : Program) (d : Driver) (value : GLint) (name : List Char) (st : GLState) :
    Program × GLState :=
  let (self1, st1) := self.use d st
  let (loc, st2) := glGetUniformLocation d self1.id name st1
  let st3 := st2.issue (.glUniform1i loc value)
  self1.stopUsing d st3

/-- The line written when the shader source cannot be opened. -/
def openErrorMessage (filename : List Char) : List Char :=
  "ERROR -> Can't open Shader Source\n\tShader src path: ".toList ++ filename ++ "\n".toList

/-- The line written when a shader does not compile. -/
def compileErrorMessage (filename infoLog : List Char) : List Char :=
  "ERROR -> Can't compile shader:\n\tShader src path: ".toList ++ filename ++ "\n\t".toList
    ++ infoLog ++ "\n".toList

/-- The line written when the program does not link. -/
def linkErrorMessage (infoLog : List Char) : List Char :=
  "ERROR -> Program couldn't link:\n\t".toList ++ infoLog ++ "\n".toList

/-- The method `Program::loadShaderSource`. -/
def loadShaderSource (self : Program) (fs : FileSystem) (filename : List Char) (st : GLState) :
    Except Exn (List Char × GLState) :=
  match fs filename with
  | some text =>
    let src := readLines text
    let version := self.glsl_version
    match replace src (find src "#version".toList) 12 ("#version ".toList ++ version) with
    | .error e => .error e
    | .ok src1 => .ok (src1, st)
  | none => .ok ([], st.cout (openErrorMessage filename))

/-- The method `Program::loadShader`. -/
def loadShader (self : Program) (d : Driver) (fs : FileSystem) (type : GLenum)
    (filename : List Char) (st : GLState) : Except Exn (GLuint × GLState) :=
  let (shader, st1) := glCreateShader d type st
  match self.loadShaderSource fs filename st1 with
  | .error e => .error e
  | .ok (str_src, st2) =>
    let src := c_str str_src
    let st3 := st2.issue (.glShaderSource shader 1 src)
    let st4 := st3.issue (.glCompileShader shader)
    let (success, st5) := glGetShaderiv d shader GL_COMPILE_STATUS st4
    if success = 0 then
      let (infoLog, st6) := glGetShaderInfoLog d shader 512 st5
      .ok (toGLuint (-1), st6.cout (compileErrorMessage filename infoLog))
    else
      .ok (shader, st5)

/-- The method `Program::linkProgram`; the result carries the object with its
`id` member assigned. -/
def linkProgram (self : Program) (d : Driver) (vertexShader fragmentShader geometryShader : GLuint)
    (st : GLState) : Bool × Program × GLState :=
  let (newId, st1) := glCreateProgram d st
  let self1 : Program := { self with id := newId }
  let st2 := st1.issue (.glAttachShader self1.id vertexShader)
  let st3 := if geometryShader ≠ 0 then st2.issue (.glAttachShader self1.id geometryShader) else st2
  let st4 := st3.issue (.glAttachShader self1.id fragmentShader)
  let st5 := st4.issue (.glLinkProgram self1.id)
  let (success, st6) := glGetProgramiv d self1.id GL_LINK_STATUS st5
  if success = 0 then
    let (infoLog, st7) := glGetProgramInfoLog d self1.id 512 st6
    (false, self1, st7.cout (linkErrorMessage infoLog))
  else
    (true, self1, glUseProgram d 0 st6)

/-- The constructor `Program::Program`. `uninit` is the indeterminate value of
the `id` member before `linkProgram` assigns it; `geometryFile = none` is the
null pointer. -/
def ctor (d : Driver) (fs : FileSystem) (uninit : GLuint) (glsl_version : List Char)
    (versionMaj versionMin : Int) (vertexFile fragmentFile : List Char)
    (geometryFile : Option (List Char)) (st : GLState) : Except Exn (Program × GLState) :=
  let self : Program :=
    { id := uninit, versionMaj := versionMaj, versionMin := versionMin,
      glsl_version := glsl_version }
  match self.loadShader d fs GL_VERTEX_SHADER vertexFile st with
  | .error e => .error e
  | .ok (vertexShader, st1) =>
    let geometry : Except Exn (GLuint × GLState) :=
      match geometryFile with
      | some file => self.loadShader d fs GL_GEOMETRY_SHADER file st1
      | none => .ok (0, st1)
    match geometry with
    | .error e => .error e
    | .ok (geometryShader, st2) =>
      match self.loadShader d fs GL_FRAGMENT_SHADER fragmentFile st2 with
      | .error e => .error e
      | .ok (fragmentShader, st3) =>
        let (_, self1, st4) := self.linkProgram d vertexShader fragmentShader geometryShader st3
        let st5 := st4.issue (.glDeleteShader vertexShader)
        let st6 := if geometryShader ≠ 0 then st5.issue (.glDeleteShader geometryShader) else st5
        let st7 := st6.issue (.glDeleteShader fragmentShader)
        .ok (self1, st7)

end Program

/-! ## main.cpp -/

/-- Modelled from the spec: the enumeration that names the six entries of
`shaderPrograms`; its header is not among the sources. Only the names that
main.cpp uses are taken, no numeric value is assumed. -/
inductive ProgramIndex where
  | CORE_PROGRAM
  | SKYBOX_PROGRAM
  | SHADOW_PASS
  | LIGHT_PASS
  | PLAIN_PROGRAM
  | RENDER_REFLECT
  deriving DecidableEq, Repr

open ProgramIndex

def GL_MULTISAMPLE : GLenum := 0x809D

def GL_DEPTH_TEST : GLenum := 0x0B71

def GL_LESS : GLenum := 0x0201

def GL_CULL_FACE : GLenum := 0x0B44

def GL_CCW : GLenum := 0x0901

def GL_BACK : GLenum := 0x0405

def GL_COLOR_BUFFER_BIT : Nat := 0x4000

def GL_DEPTH_BUFFER_BIT : Nat := 0x100

/-- The literal `0.f`. -/
def f_0 : GLfloat := ⟨0x00000000⟩

/-- The literal `1.f`. -/
def f_1 : GLfloat := ⟨0x3F800000⟩

/-- The literal `2.5f`. -/
def f_2_5 : GLfloat := ⟨0x40200000⟩

/-- The literal `7.f`. -/
def f_7 : GLfloat := ⟨0x40E00000⟩

/-- The literal `30.f`. -/
def f_30 : GLfloat := ⟨0x41F00000⟩

/-- The literal `90.f`. -/
def f_90 : GLfloat := ⟨0x42B40000⟩

/-- The literal `0.975f`. -/
def f_0_975 : GLfloat := ⟨0x3F79999A⟩

/-- The literal `0.001f`. -/
def f_0_001 : GLfloat := ⟨0x3A83126F⟩

/-- The literal `0.45f`. -/
def f_0_45 : GLfloat := ⟨0x3EE66666⟩

/-- The literal `0.55f`. -/
def f_0_55 : GLfloat := ⟨0x3F0CCCCD⟩

/-- The literal `0.60f`. -/
def f_0_60 : GLfloat := ⟨0x3F19999A⟩

/-- The statements of main.cpp that act on the window, the world, the camera,
the input processor, the GUI, the shader programs or OpenGL, with their
arguments. Pure getters (`getPerspectiveMatrix`, `getViewMatrix`, `getWidth`,
`getHeight`, `getMeshes`, `getLight`) are not recorded. -/
inductive MainCall where
  | glEnable (cap : GLenum)
  | glDepthFunc (func : GLenum)
  | glFrontFace (mode : GLenum)
  | glCullFace (mode : GLenum)
  | glClearColor (red green blue alpha : GLfloat)
  | glClear (mask : Nat)
  | glViewport (x y width height : Int)
  | addLight (position : vec3)
  | loadMesh (path : List Char)
  | meshTranslate (mesh : Nat) (v : vec3)
  | meshScaleUp (mesh : Nat) (v : vec3)
  | meshRotate (mesh : Nat) (v : vec3)
  | meshAttatchPosition (mesh : Nat) (light : Nat)
  | createSkybox (shader : ProgramIndex) (directory extension : List Char)
  | createFloor
  | setAspectRatio (width height : GLfloat)
  | setMat4fv (shader : ProgramIndex) (value : mat4) (name : List Char) (transpose : GLboolean)
  | cameraSendUniforms (shader : ProgramIndex)
  | worldSendUniforms (shader : ProgramIndex)
  | renderShadowCubeMaps (shader : ProgramIndex)
  | renderReflections (shader : ProgramIndex)
  | renderMeshes (shader : ProgramIndex)
  | renderFloor (shader : ProgramIndex)
  | renderSkybox (view : mat4)
  | guiDraw (clear_color : vec4)
  | guiRender
  | swapBuffers
  | getDeltaTime
  | isOpen
  | inputProcess (delta : GLfloat)
  | deleteProgram (shader : ProgramIndex)
  deriving DecidableEq, Repr

/-- The collaborators of main.cpp whose code is not among the sources, and the
floating-point operations of the language and of glm: each answer is a
function of the calls issued before it. -/
structure Host where
  /-- Result of `windowManager.isOpen()`. -/
  isOpen : List MainCall → Bool
  /-- Result of `input.process(&mainCamera, delta)`. -/
  inputProcess : List MainCall → GLfloat → Bool
  /-- Result of `windowManager.getDeltaTime()`. -/
  getDeltaTime : List MainCall → GLfloat
  /-- Result of `w.getPerspectiveMatrix()`. -/
  getPerspectiveMatrix : List MainCall → mat4
  /-- Result of `mainCamera.getViewMatrix()`. -/
  getViewMatrix : List MainCall → mat4
  /-- Result of `w.getWidth()`. -/
  getWidth : List MainCall → GLfloat
  /-- Result of `w.getHeight()`. -/
  getHeight : List MainCall → GLfloat
  /-- Value of `clear_color` after `gui.draw`, which receives its address. -/
  guiDraw : List MainCall → vec4 → vec4
  /-- Product of two floats. -/
  fmul : GLfloat → GLfloat → GLfloat
  /-- Conversion `(int)x`. -/
  toInt : GLfloat → Int
  /-- Conversion `(float)n`. -/
  ofInt : Int → GLfloat
  /-- Product `s * v` of glm. -/
  scale : GLfloat → vec3 → vec3
  /-- Negation `-v` of glm. -/
  neg : vec3 → vec3
  /-- Product of two `glm::mat4`. -/
  matMul : mat4 → mat4 → mat4

/-- The calls issued so far and the locals of `main` that the frame loop
reads and writes. -/
structure MainState where
  calls : List MainCall
  delta : GLfloat
  clear_color : vec4
  deriving DecidableEq, Repr

/-- Record one call. -/
def MainState.call (st : MainState) (c : MainCall) : MainState :=
  { st with calls := st.calls ++ [c] }

/-- The function `configOpenGL`. -/
def configOpenGL (st : MainState) : MainState :=
  let st := st.call (.glEnable GL_MULTISAMPLE)
  let st := st.call (.glEnable GL_DEPTH_TEST)
  let st := st.call (.glDepthFunc GL_LESS)
  let st := st.call (.glEnable GL_CULL_FACE)
  let st := st.call (.glFrontFace GL_CCW)
  st.call (.glCullFace GL_BACK)

/-- The function `updateProjectionViewMatrix`. -/
def updateProjectionViewMatrix (h : Host) (st : MainState) : MainState :=
  let ProjView := h.matMul (h.getPerspectiveMatrix st.calls) (h.getViewMatrix st.calls)
  let st := st.call (.setMat4fv CORE_PROGRAM ProjView "ProjViewMatrix".toList GL_FALSE)
  let st := st.call (.setMat4fv LIGHT_PASS ProjView "ProjViewMatrix".toList GL_FALSE)
  let st := st.call (.setMat4fv PLAIN_PROGRAM ProjView "ProjViewMatrix".toList GL_FALSE)
  st.call (.setMat4fv RENDER_REFLECT ProjView "ProjViewMatrix".toList GL_FALSE)

/-- The function `updateProjectionMatrix`. -/
def updateProjectionMatrix (h : Host) (st : MainState) : MainState :=
  let st := st.call
    (.setMat4fv SKYBOX_PROGRAM (h.getPerspectiveMatrix st.calls) "ProjectionMatrix".toList GL_FALSE)
  st.call
    (.setMat4fv SHADOW_PASS (h.getPerspectiveMatrix st.calls) "ProjectionMatrix".toList GL_FALSE)

/-- The function `frameBufferSizeCallback`. -/
def frameBufferSizeCallback (h : Host) (width height : Int) (st : MainState) : MainState :=
  let st := st.call (.glViewport 0 0 width height)
  let st := st.call (.setAspectRatio (h.ofInt width) (h.ofInt height))
  let st := updateProjectionMatrix h st
  updateProjectionViewMatrix h st

/-- The statements of `main` before the frame loop (lines 53 to 89). -/
def setup (h : Host) (st : MainState) : MainState :=
  let st := configOpenGL st
  let st := { st with clear_color := ⟨f_0_45, f_0_55, f_0_60, f_1⟩ }
  let st := st.call (.addLight ⟨f_0, f_0, f_0⟩)
  let st := st.call (.loadMesh "models\\Crate1.obj".toList)
  let st := st.call (.loadMesh "models\\estrellica.obj".toList)
  let st := st.call (.meshTranslate 0 ⟨f_0, f_0, f_7⟩)
  let st := st.call (.meshTranslate 1 ⟨f_1, f_1, f_2_5⟩)
  let st := st.call (.meshScaleUp 1 (h.neg ⟨f_0_975, f_0_975, f_0_975⟩))
  let st := st.call (.meshRotate 1 ⟨f_90, f_0, f_0⟩)
  let st := st.call (.meshAttatchPosition 1 0)
  let st := { st with delta := f_0_001 }
  let st := st.call (.createSkybox SKYBOX_PROGRAM "shaders/skybox/sky/".toList "jpg".toList)
  let st := st.call
    (.setMat4fv SKYBOX_PROGRAM (h.getPerspectiveMatrix st.calls) "ProjectionMatrix".toList GL_FALSE)
  let st := st.call (.cameraSendUniforms CORE_PROGRAM)
  let st := st.call (.cameraSendUniforms LIGHT_PASS)
  let st := updateProjectionViewMatrix h st
  let st := st.call .createFloor
  st.call .getDeltaTime

/-- The body of the frame loop of `main` (lines 92 to 137). -/
def frame (h : Host) (st : MainState) : MainState :=
  let st := st.call (.meshRotate 0 (h.scale st.delta ⟨f_30, f_30, f_30⟩))
  let st := st.call (.meshRotate 1 (h.scale st.delta ⟨f_0, f_90, f_0⟩))
  let moved := h.inputProcess st.calls st.delta
  let st := st.call (.inputProcess st.delta)
  let st :=
    if moved then
      let st := st.call (.cameraSendUniforms CORE_PROGRAM)
      let st := st.call (.cameraSendUniforms LIGHT_PASS)
      updateProjectionViewMatrix h st
    else st
  let st := st.call (.worldSendUniforms CORE_PROGRAM)
  let st := st.call (.worldSendUniforms LIGHT_PASS)
  let st := st.call (.renderShadowCubeMaps SHADOW_PASS)
  let st := st.call (.glClearColor (h.fmul st.clear_color.x st.clear_color.w)
    (h.fmul st.clear_color.y st.clear_color.w) (h.fmul st.clear_color.z st.clear_color.w)
    st.clear_color.w)
  let st := st.call (.glClear (GL_COLOR_BUFFER_BIT ||| GL_DEPTH_BUFFER_BIT))
  let st := st.call (.renderReflections PLAIN_PROGRAM)
  let st := st.call (.glViewport 0 0 (h.toInt (h.getWidth st.calls)) (h.toInt (h.getHeight st.calls)))
  let st := st.call (.renderMeshes LIGHT_PASS)
  let st := st.call (.renderFloor RENDER_REFLECT)
  let st := st.call (.renderSkybox (h.getViewMatrix st.calls))
  let colour := h.guiDraw st.calls st.clear_color
  let st := st.call (.guiDraw st.clear_color)
  let st := { st with clear_color := colour }
  let st := st.call .guiRender
  let st := st.call .swapBuffers
  let delta := h.getDeltaTime st.calls
  let st := st.call .getDeltaTime
  { st with delta := delta }

/-- The loop `while (windowManager.isOpen())` of `main`, for at most `fuel`
iterations: the window may stay open for ever. -/
def frameLoop (h : Host) : Nat → MainState → MainState
  | 0, st => st
  | fuel + 1, st =>
    let isOpen := h.isOpen st.calls
    let st := st.call .isOpen
    if isOpen then frameLoop h fuel (frame h st) else st

/-- The function `main`, its loop cut after `fuel` iterations: set-up, the frame
loop, then the deletion of the six shader programs in array order. -/
def main (h : Host) (fuel : Nat) (st : MainState) : MainState :=
  let st := setup h st
  let st := frameLoop h fuel st
  let st := st.call (.deleteProgram CORE_PROGRAM)
  let st := st.call (.deleteProgram SKYBOX_PROGRAM)
  let st := st.call (.deleteProgram SHADOW_PASS)
  let st := st.call (.deleteProgram LIGHT_PASS)
  let st := st.call (.deleteProgram PLAIN_PROGRAM)
  st.call (.deleteProgram RENDER_REFLECT)

/-- The passes of a frame, as the statements of the loop body that issue them. -/
inductive Pass where
  | shadowCubeMaps (shader : ProgramIndex)
  | reflections (shader : ProgramIndex)
  | meshes (shader : ProgramIndex)
  | floor (shader : ProgramIndex)
  | skybox
  | guiDraw
  | guiRender
  | swapBuffers
  deriving DecidableEq, Repr

/-- The pass that a recorded call issues, if it is one. -/
def passOf : MainCall → Option Pass
  | .renderShadowCubeMaps p => some (.shadowCubeMaps p)
  | .renderReflections p => some (.reflections p)
  | .renderMeshes p => some (.meshes p)
  | .renderFloor p => some (.floor p)
  | .renderSkybox _ => some .skybox
  | .guiDraw _ => some .guiDraw
  | .guiRender => some .guiRender
  | .swapBuffers => some .swapBuffers
  | _ => none

/-- The programs that receive a matrix under the given uniform name, in the
order of the calls. -/
def receivers (name : List Char) (calls : List MainCall) : List ProgramIndex :=
  calls.filterMap fun c =>
    match c with
    | .setMat4fv p _ n _ => if n = name then some p else none
    | _ => none

/-- The calls issued when `linkProgram` asks for the link status: those before
it, then the creation of the program, the attachments and the link. -/
def linkCalls (d : Driver) (vertexShader fragmentShader geometryShader : GLuint)
    (st : GLState) : List GLCall :=
  st.calls ++ [.glCreateProgram, .glAttachShader (d.createProgram st.calls) vertexShader]
    ++ (if geometryShader ≠ 0 then [.glAttachShader (d.createProgram st.calls) geometryShader]
        else [])
    ++ [.glAttachShader (d.createProgram st.calls) fragmentShader,
        .glLinkProgram (d.createProgram st.calls)]

/-- The passes of one frame, in the order of the loop body. -/
def framePasses : List Pass :=
  [.shadowCubeMaps SHADOW_PASS, .reflections PLAIN_PROGRAM, .meshes LIGHT_PASS,
    .floor RENDER_REFLECT, .skybox, .guiDraw, .guiRender, .swapBuffers]

/-- The compile status that the driver reports to `loadShader` for the shader
it creates from `filename`, when the source loads. -/
def compileStatus (self : Program) (d : Driver) (fs : FileSystem) (type : GLenum)
    (filename : List Char) (st : GLState) : Option GLint :=
  match self.loadShaderSource fs filename (st.issue (.glCreateShader type)) with
  | .error _ => none
  | .ok (src, st2) =>
    some (d.getShaderiv
      (st2.calls ++ [.glShaderSource (d.createShader st.calls type) 1 (c_str src),
        .glCompileShader (d.createShader st.calls type)])
      (d.createShader st.calls type) GL_COMPILE_STATUS)

/-- The info log that the driver hands to `loadShader` for that shader after
the status query. -/
def compileLog (self : Program) (d : Driver) (fs : FileSystem) (type : GLenum)
    (filename : List Char) (st : GLState) : List Char :=
  match self.loadShaderSource fs filename (st.issue (.glCreateShader type)) with
  | .error _ => []
  | .ok (src, st2) =>
    d.getShaderInfoLog
      (st2.calls ++ [.glShaderSource (d.createShader st.calls type) 1 (c_str src),
        .glCompileShader (d.createShader st.calls type),
        .glGetShaderiv (d.createShader st.calls type) GL_COMPILE_STATUS])
      (d.createShader st.calls type) 512

/-! ## Concrete drivers and files for the examples -/

/-- A driver for the examples: shader handles count the calls issued so far,
every program is number 9, compilation and linking succeed. -/
def okDriver : Driver where
  createShader := fun calls _ => calls.length + 1
  getShaderiv := fun _ _ _ => 1
  getShaderInfoLog := fun _ _ _ => []
  createProgram := fun _ => 9
  getProgramiv := fun _ _ _ => 1
  getProgramInfoLog := fun _ _ _ => []
  getUniformLocation := fun _ _ _ => 0
  installs := fun _ _ => true

/-- The driver `okDriver`, except that linking fails. -/
def linkFailDriver : Driver :=
  { okDriver with
    getProgramiv := fun _ _ _ => 0
    getProgramInfoLog := fun _ _ _ => "no main".toList }

/-- The driver `okDriver`, except that the shader with handle 1 (the first one
created) does not compile. -/
def compileFailDriver : Driver :=
  { okDriver with
    getShaderiv := fun _ shader _ => if shader = 1 then 0 else 1
    getShaderInfoLog := fun _ _ _ => "syntax error".toList }

/-- The driver `compileFailDriver`, except that linking fails too. -/
def failDriver : Driver :=
  { compileFailDriver with
    getProgramiv := fun _ _ _ => 0
    getProgramInfoLog := fun _ _ _ => "no main".toList }

/-- A file system for the examples: two shader sources with a version
directive, one without, and no other file. -/
def exampleFiles : FileSystem := fun path =>
  if path = "v.vert".toList then some "#version 330 core\nvoid main();\n".toList
  else if path = "f.frag".toList then some "#version 330 core\nvoid main();\n".toList
  else if path = "plain.vert".toList then some "void main();\n".toList
  else none

/-! ## Reading a file line by line -/

theorem span_newline (s : List Char) :
    (s.dropWhile (fun c => c != '\n') = [] ∧ s.takeWhile (fun c => c != '\n') = s
        ∧ ∀ c ∈ s, c ≠ '\n')
    ∨ ∃ rest, s.dropWhile (fun c => c != '\n') = '\n' :: rest
        ∧ s = s.takeWhile (fun c => c != '\n') ++ '\n' :: rest := by
  induction s with
  | nil => left; simp
  | cons c cs ih =>
    by_cases hc : c = '\n'
    · right; exact ⟨cs, by simp [List.dropWhile, hc], by simp [List.takeWhile, hc]⟩
    · have hb : (c != '\n') = true := by simpa using hc
      rcases ih with ⟨h1, h2, h3⟩ | ⟨rest, h1, h2⟩
      · left
        refine ⟨by rw [List.dropWhile_cons, hb]; simpa using h1,
          by rw [List.takeWhile_cons, hb]; simpa using h2, ?_⟩
        intro x hx
        rcases List.mem_cons.mp hx with rfl | hx
        · exact hc
        · exact h3 x hx
      · right
        refine ⟨rest, by rw [List.dropWhile_cons, hb]; simpa using h1, ?_⟩
        rw [List.takeWhile_cons, hb]
        simp only [↓reduceIte, List.cons_append, List.cons.injEq, true_and]
        exact h2

theorem getLast?_ne_of_forall {s : List Char} (h : ∀ c ∈ s, c ≠ '\n') :
    s.getLast? ≠ some '\n' := by
  intro hl
  exact h _ (List.mem_of_getLast?_eq_some hl) rfl

theorem terminated_split (temp rest : List Char) :
    terminated (temp ++ '\n' :: rest) = temp ++ '\n' :: terminated rest := by
  unfold terminated
  by_cases hr : rest = []
  · subst hr; simp [List.getLast?_append]
  · have hl : (temp ++ '\n' :: rest).getLast? = rest.getLast? := by
      obtain ⟨a, l, rfl⟩ := List.exists_cons_of_ne_nil hr
      rw [List.getLast?_append, List.getLast?_cons_cons]
      cases h : (a :: l).getLast? with
      | none => simp at h
      | some x => simp
    simp only [List.append_eq_nil, List.cons_ne_self, and_false, reduceCtorEq, ↓reduceIte, hl, hr]
    split <;> simp

theorem readLoop_eq (fuel : Nat) : ∀ (stream src : List Char), stream.length ≤ fuel →
    readLoop fuel stream src = src ++ terminated stream := by
  induction fuel with
  | zero =>
    intro stream src h
    have : stream = [] := List.length_eq_zero.mp (Nat.le_zero.mp h)
    subst this
    simp [readLoop, terminated]
  | succ n ih =>
    intro stream src h
    cases stream with
    | nil => simp [readLoop, getline, terminated]
    | cons c cs =>
      simp only [readLoop, getline]
      rcases span_newline (c :: cs) with ⟨h1, h2, h3⟩ | ⟨rest, h1, h2⟩
      · rw [h1, h2]
        have hfin : readLoop n [] (src ++ (c :: cs ++ "\n".toList)) = src ++ (c :: cs ++ "\n".toList) := by
          cases n <;> simp [readLoop, getline]
        simp only [List.tail_nil]
        rw [hfin]
        simp [terminated, getLast?_ne_of_forall h3]
      · rw [h1]
        simp only [List.tail_cons]
        have hlen : rest.length ≤ n := by
          have := congrArg List.length h2
          simp at this h
          omega
        rw [ih rest _ hlen]
        conv_rhs => rw [h2, terminated_split]
        simp

/-- The read loop leaves in `src` the file text, newline-terminated. -/
theorem readLines_eq (text : List Char) : readLines text = terminated text := by
  simp [readLines, readLoop_eq text.length text [] (le_refl _)]

/-! ## Searching a string -/

theorem isPrefixOf_iff (needle s : List Char) : needle.isPrefixOf s = true ↔ needle <+: s :=
  List.isPrefixOf_iff_prefix

theorem firstOccurrence_some {needle : List Char} : ∀ {s : List Char} {pos : Nat},
    firstOccurrence needle s = some pos →
      needle <+: s.drop pos ∧ pos + needle.length ≤ s.length
        ∧ ∀ j, j < pos → ¬ needle <+: s.drop j := by
  intro s
  induction s with
  | nil =>
    intro pos h
    simp only [firstOccurrence] at h
    split at h
    · rename_i hp
      cases h
      have hp := (isPrefixOf_iff _ _).mp hp
      refine ⟨by simpa using hp, ?_, by intro j hj; omega⟩
      have := hp.length_le
      simpa using this
    · cases h
  | cons c cs ih =>
    intro pos h
    simp only [firstOccurrence] at h
    split at h
    · rename_i hp
      cases h
      have hp := (isPrefixOf_iff _ _).mp hp
      refine ⟨by simpa using hp, ?_, by intro j hj; omega⟩
      have := hp.length_le
      simpa using this
    · rename_i hp
      cases hq : firstOccurrence needle cs with
      | none => simp [hq] at h
      | some q =>
        simp only [hq, Option.map_some', Option.some.injEq] at h
        subst h
        obtain ⟨h1, h2, h3⟩ := ih hq
        refine ⟨by simpa using h1, by simp; omega, ?_⟩
        intro j hj
        cases j with
        | zero =>
          intro hpre
          exact hp ((isPrefixOf_iff _ _).mpr (by simpa using hpre))
        | succ k =>
          have := h3 k (by omega)
          simpa using this

theorem infix_iff_prefix_drop (needle s : List Char) :
    needle <:+: s ↔ ∃ j, needle <+: s.drop j := by
  constructor
  · rintro ⟨l, r, rfl⟩
    refine ⟨l.length, ?_⟩
    simp [List.append_assoc]
  · rintro ⟨j, hj⟩
    exact hj.isInfix.trans (List.drop_suffix j s).isInfix

/-- C2, failing input. A readable file without "#version": find returns npos
and replace raises std::out_of_range, so loadShaderSource does not return a
string. -/
theorem loadShaderSource_without_version_raises :
    Program.loadShaderSource ⟨0, 4, 6, glVersion_str⟩
      (fun _ => some "void main();\n".toList) "v.vert".toList ⟨[], [], 0⟩
      = .error .out_of_range := by
  rfl
theorem not_infix_terminated {text : List Char} (hno : ¬ "#version".toList <:+: text) :
    ¬ "#version".toList <:+: terminated text := by
  unfold terminated
  split
  · simp_all
  · split
    · exact hno
    · rintro ⟨l, r, hlr⟩
      apply hno
      rcases List.eq_nil_or_concat r with rfl | ⟨r1, c, rfl⟩
      · have := congrArg List.getLast? hlr
        simp at this
      · have e : l ++ "#version".toList ++ (r1 ++ [c]) = (l ++ "#version".toList ++ r1) ++ [c] := by
          simp
        rw [List.concat_eq_append, e] at hlr
        have := List.append_inj_left' hlr rfl
        exact ⟨l, r1, this⟩

/-- Every readable file without "#version" makes loadShaderSource raise
std::out_of_range (the length bound holds for every std::string). -/
theorem loadShaderSource_raises_of_no_version (self : Program) (fs : FileSystem)
    (filename text : List Char) (st : GLState) (hopen : fs filename = some text)
    (hno : ¬ "#version".toList <:+: text) (hlen : text.length + 1 < npos) :
    self.loadShaderSource fs filename st = .error .out_of_range := by
  have hnone : firstOccurrence "#version".toList (terminated text) = none := by
    cases hq : firstOccurrence "#version".toList (terminated text) with
    | none => rfl
    | some q =>
      exact absurd ((infix_iff_prefix_drop _ _).mpr ⟨q, (firstOccurrence_some hq).1⟩)
        (not_infix_terminated hno)
  have hT : (terminated text).length ≤ text.length + 1 := by
    unfold terminated
    split
    · simp
    · split <;> simp
  simp only [Program.loadShaderSource, hopen, readLines_eq, find, hnone, replace]
  rw [if_pos (by omega)]

theorem frame_calls_extend (h : Host) (st : MainState) :
    ∃ new, (frame h st).calls = st.calls ++ new ∧ new.filterMap passOf = framePasses := by
  refine ⟨(frame h st).calls.drop st.calls.length, ?_, ?_⟩
  · cases hm : h.inputProcess
        (st.calls ++ [.meshRotate 0 (h.scale st.delta ⟨f_30, f_30, f_30⟩),
          .meshRotate 1 (h.scale st.delta ⟨f_0, f_90, f_0⟩)]) st.delta <;>
      simp [frame, updateProjectionViewMatrix, MainState.call, hm]
  · cases hm : h.inputProcess
        (st.calls ++ [.meshRotate 0 (h.scale st.delta ⟨f_30, f_30, f_30⟩),
          .meshRotate 1 (h.scale st.delta ⟨f_0, f_90, f_0⟩)]) st.delta <;>
      simp [frame, updateProjectionViewMatrix, MainState.call, hm, passOf, framePasses]

/-- However long the loop runs, the passes it issues are whole frames: the
sequence of one frame, repeated. -/
theorem frameLoop_passes (h : Host) : ∀ (fuel : Nat) (st : MainState),
    ∃ new k, (frameLoop h fuel st).calls = st.calls ++ new
      ∧ new.filterMap passOf = (List.replicate k framePasses).flatten := by
  intro fuel
  induction fuel with
  | zero => intro st; exact ⟨[], 0, by simp [frameLoop], by simp⟩
  | succ n ih =>
    intro st
    cases ho : h.isOpen st.calls
    · exact ⟨[.isOpen], 0, by simp [frameLoop, ho, MainState.call], by simp [passOf]⟩
    · obtain ⟨new1, h1, h2⟩ := frame_calls_extend h (st.call .isOpen)
      obtain ⟨new2, k, h3, h4⟩ := ih (frame h (st.call .isOpen))
      refine ⟨[.isOpen] ++ new1 ++ new2, k + 1, ?_, ?_⟩
      · have e : (frameLoop h (n + 1) st).calls
            = (frameLoop h n (frame h (st.call .isOpen))).calls := by
          simp only [frameLoop, ho, ↓reduceIte]
        rw [e, h3, h1]
        simp [MainState.call, List.append_assoc]
      · simp [List.filterMap_append, h2, h4, passOf, List.replicate_succ]

/-- C1. Whatever input.process answers, one iteration of the frame loop adds
to the calls issued so far, among its other statements, exactly these passes,
each once and in this order: renderShadowCubeMaps with SHADOW_PASS,
renderReflections with PLAIN_PROGRAM, renderMeshes with LIGHT_PASS, renderFloor
with RENDER_REFLECT, renderSkybox, the GUI draw and render, the buffer swap.
So the passes of any run of the loop are that sequence, repeated. -/
theorem frame_passes_in_order (h : Host) (st : MainState) :
    (∃ new, (frame h st).calls = st.calls ++ new
      ∧ new.filterMap passOf =
        [.shadowCubeMaps SHADOW_PASS, .reflections PLAIN_PROGRAM, .meshes LIGHT_PASS,
          .floor RENDER_REFLECT, .skybox, .guiDraw, .guiRender, .swapBuffers])
    ∧ ∀ fuel, ∃ new k, (frameLoop h fuel st).calls = st.calls ++ new
        ∧ new.filterMap passOf = (List.replicate k
            [.shadowCubeMaps SHADOW_PASS, .reflections PLAIN_PROGRAM, .meshes LIGHT_PASS,
              .floor RENDER_REFLECT, .skybox, .guiDraw, .guiRender, .swapBuffers]).flatten :=
  ⟨frame_calls_extend h st, fun fuel => frameLoop_passes h fuel st⟩

/-- C8. A resize event sets the viewport to (0, 0, width, height), then updates
the aspect ratio, and only then pushes the perspective matrix, read after the
update, as "ProjectionMatrix" to SKYBOX_PROGRAM and SHADOW_PASS, and perspective
times view as "ProjViewMatrix" to CORE_PROGRAM, LIGHT_PASS, PLAIN_PROGRAM and
RENDER_REFLECT: the programs that updateProjectionViewMatrix serves at startup
and, in the frame loop, after a camera change. -/
theorem frameBufferSizeCallback_pushes (h : Host) (width height : Int) (st : MainState) :
    let resized := st.calls ++
      [.glViewport 0 0 width height, .setAspectRatio (h.ofInt width) (h.ofInt height)]
    let skybox := MainCall.setMat4fv SKYBOX_PROGRAM (h.getPerspectiveMatrix resized)
      "ProjectionMatrix".toList GL_FALSE
    let shadow := MainCall.setMat4fv SHADOW_PASS (h.getPerspectiveMatrix (resized ++ [skybox]))
      "ProjectionMatrix".toList GL_FALSE
    let ProjView := h.matMul (h.getPerspectiveMatrix (resized ++ [skybox, shadow]))
      (h.getViewMatrix (resized ++ [skybox, shadow]))
    (frameBufferSizeCallback h width height st).calls =
        resized ++ [skybox, shadow,
          .setMat4fv CORE_PROGRAM ProjView "ProjViewMatrix".toList GL_FALSE,
          .setMat4fv LIGHT_PASS ProjView "ProjViewMatrix".toList GL_FALSE,
          .setMat4fv PLAIN_PROGRAM ProjView "ProjViewMatrix".toList GL_FALSE,
          .setMat4fv RENDER_REFLECT ProjView "ProjViewMatrix".toList GL_FALSE]
      ∧ receivers "ProjViewMatrix".toList (frameBufferSizeCallback h width height st).calls =
          receivers "ProjViewMatrix".toList st.calls
            ++ [CORE_PROGRAM, LIGHT_PASS, PLAIN_PROGRAM, RENDER_REFLECT]
      ∧ receivers "ProjectionMatrix".toList (frameBufferSizeCallback h width height st).calls =
          receivers "ProjectionMatrix".toList st.calls ++ [SKYBOX_PROGRAM, SHADOW_PASS]
      ∧ receivers "ProjViewMatrix".toList (setup h st).calls =
          receivers "ProjViewMatrix".toList st.calls
            ++ [CORE_PROGRAM, LIGHT_PASS, PLAIN_PROGRAM, RENDER_REFLECT]
      ∧ receivers "ProjViewMatrix".toList (frame h st).calls =
          receivers "ProjViewMatrix".toList st.calls
            ++ (if h.inputProcess
                  (st.calls ++ [.meshRotate 0 (h.scale st.delta ⟨f_30, f_30, f_30⟩),
                    .meshRotate 1 (h.scale st.delta ⟨f_0, f_90, f_0⟩)]) st.delta
                then [CORE_PROGRAM, LIGHT_PASS, PLAIN_PROGRAM, RENDER_REFLECT] else []) := by
  have hne : ("ProjectionMatrix".toList = "ProjViewMatrix".toList) = False := by
    simp
  have hne2 : ("ProjViewMatrix".toList = "ProjectionMatrix".toList) = False := by
    simp
  refine ⟨?_, ?_, ?_, ?_, ?_⟩
  · simp [frameBufferSizeCallback, updateProjectionMatrix, updateProjectionViewMatrix,
      MainState.call]
  · simp [frameBufferSizeCallback, updateProjectionMatrix, updateProjectionViewMatrix,
      MainState.call, receivers, List.filterMap_append]
  · simp [frameBufferSizeCallback, updateProjectionMatrix, updateProjectionViewMatrix,
      MainState.call, receivers, List.filterMap_append]
  · simp [setup, configOpenGL, updateProjectionViewMatrix,
      MainState.call, receivers, List.filterMap_append]
  · cases hm : h.inputProcess
      (st.calls ++ [.meshRotate 0 (h.scale st.delta ⟨f_30, f_30, f_30⟩),
        .meshRotate 1 (h.scale st.delta ⟨f_0, f_90, f_0⟩)]) st.delta
    · simp [frame, updateProjectionViewMatrix, MainState.call, receivers,
        List.filterMap_append, hm]
    · simp [frame, updateProjectionViewMatrix, MainState.call, receivers,
        List.filterMap_append, hm]

/-! ## Uniform setters -/

/-- C7. Every uniform setter, from any binding state, issues exactly: bind this
program, look the name up in this program, write the uniform once at the
location found, bind program 0. On return no program is bound, the object (so
its id) is as before, and nothing was printed. -/
theorem setters_bind_write_unbind (self : Program) (d : Driver) (name : List Char)
    (st : GLState) :
    let loc := d.getUniformLocation (st.calls ++ [.glUseProgram self.id]) self.id name
    let around := fun (write : GLCall) =>
      (self, ({ calls := st.calls ++ [.glUseProgram self.id,
                  .glGetUniformLocation self.id name, write, .glUseProgram 0]
                out := st.out
                currentProgram := 0 } : GLState))
    (∀ value, self.setVec3f d value name st = around (.glUniform3fv loc 1 value))
      ∧ (∀ value, self.setVec2f d value name st = around (.glUniform2fv loc 1 value))
      ∧ (∀ value, self.setVec4f d value name st = around (.glUniform4fv loc 1 value))
      ∧ (∀ value transpose, self.setMat3fv d value name transpose st
          = around (.glUniformMatrix3fv loc 1 transpose value))
      ∧ (∀ value transpose, self.setMat4fv d value name transpose st
          = around (.glUniformMatrix4fv loc 1 transpose value))
      ∧ (∀ value, self.set1f d value name st = around (.glUniform1f loc value))
      ∧ (∀ value, self.set1i d value name st = around (.glUniform1i loc value)) := by
  refine ⟨?_, ?_, ?_, ?_, ?_, ?_, ?_⟩ <;> intros <;>
    simp [Program.setVec3f, Program.setVec2f, Program.setVec4f, Program.setMat3fv,
      Program.setMat4fv, Program.set1f, Program.set1i, Program.use, Program.stopUsing,
      glUseProgram, glGetUniformLocation, GLState.issue]

/-! ## Loading, compiling and linking -/

/-- What loadShader returns once loadShaderSource has returned `src`. -/
theorem loadShader_of_source (self : Program) (d : Driver) (fs : FileSystem) (type : GLenum)
    (filename src : List Char) (st st2 : GLState)
    (hsrc : self.loadShaderSource fs filename (st.issue (.glCreateShader type)) = .ok (src, st2)) :
    self.loadShader d fs type filename st =
      .ok (if d.getShaderiv (st2.calls ++ [.glShaderSource (d.createShader st.calls type) 1 (c_str src),
                .glCompileShader (d.createShader st.calls type)])
              (d.createShader st.calls type) GL_COMPILE_STATUS = 0
          then (toGLuint (-1),
            { calls := st2.calls ++ [.glShaderSource (d.createShader st.calls type) 1 (c_str src),
                .glCompileShader (d.createShader st.calls type),
                .glGetShaderiv (d.createShader st.calls type) GL_COMPILE_STATUS,
                .glGetShaderInfoLog (d.createShader st.calls type) 512]
              out := st2.out ++ Program.compileErrorMessage filename
                (d.getShaderInfoLog
                  (st2.calls ++ [.glShaderSource (d.createShader st.calls type) 1 (c_str src),
                    .glCompileShader (d.createShader st.calls type),
                    .glGetShaderiv (d.createShader st.calls type) GL_COMPILE_STATUS])
                  (d.createShader st.calls type) 512)
              currentProgram := st2.currentProgram })
          else (d.createShader st.calls type,
            { calls := st2.calls ++ [.glShaderSource (d.createShader st.calls type) 1 (c_str src),
                .glCompileShader (d.createShader st.calls type),
                .glGetShaderiv (d.createShader st.calls type) GL_COMPILE_STATUS]
              out := st2.out
              currentProgram := st2.currentProgram })) := by
  unfold Program.loadShader
  simp only [glCreateShader]
  rw [hsrc]
  simp only [glGetShaderiv, glGetShaderInfoLog, GLState.issue, GLState.cout,
    List.append_assoc, List.singleton_append, List.cons_append, List.nil_append]
  split <;> rfl

/-- C6. When the source path cannot be opened, loadShaderSource prints the
error line that names the path and returns the empty string without raising
and without rewriting anything; loadShader then still returns: it has created
the shader and goes on to submit the empty source and compile it. -/
theorem loadShader_unopenable (self : Program) (d : Driver) (fs : FileSystem) (type : GLenum)
    (filename : List Char) (st : GLState) (hopen : fs filename = none) :
    self.loadShaderSource fs filename st = .ok ([], st.cout (Program.openErrorMessage filename))
      ∧ filename <:+: Program.openErrorMessage filename
      ∧ ∃ result st1,
          self.loadShader d fs type filename st = .ok (result, st1)
          ∧ (st.calls ++ [.glCreateShader type,
                .glShaderSource (d.createShader st.calls type) 1 [],
                .glCompileShader (d.createShader st.calls type),
                .glGetShaderiv (d.createShader st.calls type) GL_COMPILE_STATUS]) <+: st1.calls
          ∧ (st.out ++ Program.openErrorMessage filename) <+: st1.out := by
  refine ⟨by simp [Program.loadShaderSource, hopen], ⟨_, _, rfl⟩, ?_⟩
  have hsrc : self.loadShaderSource fs filename (st.issue (.glCreateShader type))
      = .ok ([], (st.issue (.glCreateShader type)).cout (Program.openErrorMessage filename)) := by
    simp [Program.loadShaderSource, hopen]
  rw [loadShader_of_source self d fs type filename [] st _ hsrc]
  split
  · exact ⟨_, _, rfl, by simp [GLState.issue, GLState.cout, c_str],
      by simp [GLState.issue, GLState.cout]⟩
  · exact ⟨_, _, rfl, by simp [GLState.issue, GLState.cout, c_str],
      by simp [GLState.issue, GLState.cout]⟩

/-- Witness of C6: a path that the example file system does not hold. -/
theorem loadShader_unopenable_witness :
    Program.loadShaderSource ⟨0, 4, 6, "460".toList⟩ exampleFiles "missing.vert".toList ⟨[], [], 0⟩
        = .ok ([], GLState.cout ⟨[], [], 0⟩ (Program.openErrorMessage "missing.vert".toList))
      ∧ "missing.vert".toList <:+: Program.openErrorMessage "missing.vert".toList
      ∧ ∃ result st1,
          Program.loadShader ⟨0, 4, 6, "460".toList⟩ okDriver exampleFiles GL_VERTEX_SHADER
              "missing.vert".toList ⟨[], [], 0⟩ = .ok (result, st1)
          ∧ (([] : List GLCall) ++ [.glCreateShader GL_VERTEX_SHADER,
                .glShaderSource (okDriver.createShader [] GL_VERTEX_SHADER) 1 [],
                .glCompileShader (okDriver.createShader [] GL_VERTEX_SHADER),
                .glGetShaderiv (okDriver.createShader [] GL_VERTEX_SHADER) GL_COMPILE_STATUS])
              <+: st1.calls
          ∧ (([] : List Char) ++ Program.openErrorMessage "missing.vert".toList) <+: st1.out :=
  loadShader_unopenable ⟨0, 4, 6, "460".toList⟩ okDriver exampleFiles GL_VERTEX_SHADER
    "missing.vert".toList ⟨[], [], 0⟩ (by decide)

/-- C4, failing input. The file opens and holds no "#version": the exception
of loadShaderSource leaves loadShader, which returns no handle at all. -/
theorem loadShader_without_version_raises :
    Program.loadShader ⟨0, 4, 6, glVersion_str⟩ okDriver exampleFiles GL_VERTEX_SHADER
      "plain.vert".toList ⟨[], [], 0⟩ = .error .out_of_range := by
  rfl

/-- What linkProgram returns: the object with the new program as its id, and
true exactly when the driver reports a link status other than 0. -/
theorem linkProgram_eq (self : Program) (d : Driver) (v f g : GLuint) (st : GLState) :
    self.linkProgram d v f g st =
      if d.getProgramiv (linkCalls d v f g st) (d.createProgram st.calls) GL_LINK_STATUS = 0
      then (false, { self with id := d.createProgram st.calls },
        { calls := linkCalls d v f g st
            ++ [.glGetProgramiv (d.createProgram st.calls) GL_LINK_STATUS,
                .glGetProgramInfoLog (d.createProgram st.calls) 512]
          out := st.out ++ Program.linkErrorMessage
            (d.getProgramInfoLog
              (linkCalls d v f g st ++ [.glGetProgramiv (d.createProgram st.calls) GL_LINK_STATUS])
              (d.createProgram st.calls) 512)
          currentProgram := st.currentProgram })
      else (true, { self with id := d.createProgram st.calls },
        { calls := linkCalls d v f g st
            ++ [.glGetProgramiv (d.createProgram st.calls) GL_LINK_STATUS, .glUseProgram 0]
          out := st.out
          currentProgram := 0 }) := by
  by_cases hg : g = 0
  · simp only [Program.linkProgram, linkCalls, glCreateProgram, glGetProgramiv,
      glGetProgramInfoLog, glUseProgram, GLState.issue, GLState.cout, hg, ne_eq,
      not_true_eq_false, ↓reduceIte, List.append_assoc, List.singleton_append, List.cons_append,
      List.nil_append, List.append_nil]
  · simp only [Program.linkProgram, linkCalls, glCreateProgram, glGetProgramiv,
      glGetProgramInfoLog, glUseProgram, GLState.issue, GLState.cout, hg, ne_eq,
      not_false_eq_true, ↓reduceIte, List.append_assoc, List.singleton_append, List.cons_append,
      List.nil_append, List.append_nil]

/-- Whatever loadShaderSource prints, it adds after what was printed before. -/
theorem loadShaderSource_out_prefix (self : Program) (fs : FileSystem) (filename src : List Char)
    (st st2 : GLState) (h : self.loadShaderSource fs filename st = .ok (src, st2)) :
    st.out <+: st2.out := by
  unfold Program.loadShaderSource at h
  split at h
  · simp only at h
    split at h
    · cases h
    · simp only [Except.ok.injEq, Prod.mk.injEq] at h
      obtain ⟨-, rfl⟩ := h
      exact List.prefix_refl _
  · simp only [Except.ok.injEq, Prod.mk.injEq] at h
    obtain ⟨-, rfl⟩ := h
    exact List.prefix_append _ _

/-- When loadShader returns, the driver has reported a compile status: a
status other than 0 gives back the created handle, the status 0 gives back the
sentinel and has the error line naming the file and the info log printed. -/
theorem loadShader_ok_cases (self : Program) (d : Driver) (fs : FileSystem) (type : GLenum)
    (filename : List Char) (st : GLState) (r : GLuint) (st1 : GLState)
    (h : self.loadShader d fs type filename st = .ok (r, st1)) :
    st.out <+: st1.out
      ∧ ∃ s, compileStatus self d fs type filename st = some s
        ∧ (s ≠ 0 → r = d.createShader st.calls type)
        ∧ (s = 0 → r = toGLuint (-1)
            ∧ Program.compileErrorMessage filename (compileLog self d fs type filename st)
                <:+: st1.out) := by
  cases hsrc : self.loadShaderSource fs filename (st.issue (.glCreateShader type)) with
  | error e =>
    unfold Program.loadShader at h
    simp only [glCreateShader] at h
    rw [hsrc] at h
    cases h
  | ok val =>
    obtain ⟨src, st2⟩ := val
    have hpre : st.out <+: st2.out :=
      loadShaderSource_out_prefix self fs filename src (st.issue (.glCreateShader type)) st2 hsrc
    rw [loadShader_of_source self d fs type filename src st st2 hsrc] at h
    simp only [compileStatus, compileLog, hsrc]
    by_cases hs : d.getShaderiv
        (st2.calls ++ [.glShaderSource (d.createShader st.calls type) 1 (c_str src),
          .glCompileShader (d.createShader st.calls type)])
        (d.createShader st.calls type) GL_COMPILE_STATUS = 0
    · rw [if_pos hs] at h
      simp only [Except.ok.injEq, Prod.mk.injEq] at h
      obtain ⟨rfl, rfl⟩ := h
      refine ⟨hpre.trans (List.prefix_append _ _), _, rfl, fun hne => absurd hs hne, fun _ => ?_⟩
      exact ⟨rfl, ⟨st2.out, [], by simp⟩⟩
    · rw [if_neg hs] at h
      simp only [Except.ok.injEq, Prod.mk.injEq] at h
      obtain ⟨rfl, rfl⟩ := h
      exact ⟨hpre, _, rfl, fun _ => rfl, fun h0 => absurd h0 hs⟩

/-- The constructor returns only after its three stages have returned. -/
theorem ctor_ok_stages (d : Driver) (fs : FileSystem) (uninit : GLuint)
    (glsl_version : List Char) (versionMaj versionMin : Int) (vertexFile fragmentFile : List Char)
    (geometryFile : Option (List Char)) (st : GLState) (p : Program) (st5 : GLState)
    (hret : Program.ctor d fs uninit glsl_version versionMaj versionMin vertexFile fragmentFile
      geometryFile st = .ok (p, st5)) :
    ∃ v st1 g st2 f st3,
      Program.loadShader ⟨uninit, versionMaj, versionMin, glsl_version⟩ d fs GL_VERTEX_SHADER
          vertexFile st = .ok (v, st1)
      ∧ (match geometryFile with
          | some file => Program.loadShader ⟨uninit, versionMaj, versionMin, glsl_version⟩ d fs
              GL_GEOMETRY_SHADER file st1
          | none => .ok (0, st1)) = .ok (g, st2)
      ∧ Program.loadShader ⟨uninit, versionMaj, versionMin, glsl_version⟩ d fs GL_FRAGMENT_SHADER
          fragmentFile st2 = .ok (f, st3)
      ∧ p = ⟨d.createProgram st3.calls, versionMaj, versionMin, glsl_version⟩ := by
  unfold Program.ctor at hret
  simp only at hret
  split at hret
  · cases hret
  · rename_i v st1 hv
    split at hret
    · cases hret
    · rename_i g st2 hg
      split at hret
      · cases hret
      · rename_i f st3 hf
        refine ⟨v, st1, g, st2, f, st3, hv, hg, hf, ?_⟩
        rw [linkProgram_eq] at hret
        split at hret <;>
          · simp only [Except.ok.injEq, Prod.mk.injEq] at hret
            exact hret.1.symm

/-- The state in which the constructor returns, from what linkProgram gave. -/
theorem ctor_eq (d : Driver) (fs : FileSystem) (uninit : GLuint)
    (glsl_version : List Char) (versionMaj versionMin : Int) (vertexFile fragmentFile : List Char)
    (geometryFile : Option (List Char)) (st : GLState)
    (v : GLuint) (st1 : GLState) (g : GLuint) (st2 : GLState) (f : GLuint) (st3 : GLState)
    (hv : Program.loadShader ⟨uninit, versionMaj, versionMin, glsl_version⟩ d fs GL_VERTEX_SHADER
      vertexFile st = .ok (v, st1))
    (hg : (match geometryFile with
      | some file => Program.loadShader ⟨uninit, versionMaj, versionMin, glsl_version⟩ d fs
          GL_GEOMETRY_SHADER file st1
      | none => .ok (0, st1)) = .ok (g, st2))
    (hf : Program.loadShader ⟨uninit, versionMaj, versionMin, glsl_version⟩ d fs
      GL_FRAGMENT_SHADER fragmentFile st2 = .ok (f, st3)) :
    Program.ctor d fs uninit glsl_version versionMaj versionMin vertexFile fragmentFile
        geometryFile st =
      .ok ((Program.linkProgram ⟨uninit, versionMaj, versionMin, glsl_version⟩ d v f g st3).2.1,
        { calls := (Program.linkProgram ⟨uninit, versionMaj, versionMin, glsl_version⟩
              d v f g st3).2.2.calls
            ++ [.glDeleteShader v] ++ (if g ≠ 0 then [.glDeleteShader g] else [])
            ++ [.glDeleteShader f]
          out := (Program.linkProgram ⟨uninit, versionMaj, versionMin, glsl_version⟩
              d v f g st3).2.2.out
          currentProgram := (Program.linkProgram ⟨uninit, versionMaj, versionMin, glsl_version⟩
              d v f g st3).2.2.currentProgram }) := by
  unfold Program.ctor
  simp only
  split
  · rename_i e he
    rw [hv] at he
    cases he
  · rename_i v1 s1 he
    rw [hv] at he
    simp only [Except.ok.injEq, Prod.mk.injEq] at he
    obtain ⟨rfl, rfl⟩ := he
    split
    · rename_i e he
      exact absurd (he.symm.trans hg) (by simp)
    · rename_i g1 s2 he
      have hgg := he.symm.trans hg
      simp only [Except.ok.injEq, Prod.mk.injEq] at hgg
      obtain ⟨rfl, rfl⟩ := hgg
      split
      · rename_i e he
        rw [hf] at he
        cases he
      · rename_i f1 s3 he
        rw [hf] at he
        simp only [Except.ok.injEq, Prod.mk.injEq] at he
        obtain ⟨rfl, rfl⟩ := he
        by_cases hg0 : g1 = 0 <;> simp [GLState.issue, hg0]

/-- C5, as the code has it. Whenever its stages return, the constructor
returns normally with the id that glCreateProgram gave, whatever the compile
and link statuses. Either the link status is other than 0 and nothing about
the link is printed, or the link error line is printed; linkProgram returns
false exactly in the second case. A stage whose compile status is other than 0
gives the handle that glCreateShader returned; a stage whose status is 0 gives
the sentinel and has its error line, with the file path and the info log,
printed. So a program whose link or stage compilation failed is reported and
still reachable through the stored id. -/
theorem ctor_link_outcome (d : Driver) (fs : FileSystem) (uninit : GLuint)
    (glsl_version : List Char) (versionMaj versionMin : Int) (vertexFile fragmentFile : List Char)
    (geometryFile : Option (List Char)) (st : GLState)
    (v : GLuint) (st1 : GLState) (g : GLuint) (st2 : GLState) (f : GLuint) (st3 : GLState)
    (hv : Program.loadShader ⟨uninit, versionMaj, versionMin, glsl_version⟩ d fs GL_VERTEX_SHADER
      vertexFile st = .ok (v, st1))
    (hg : (match geometryFile with
      | some file => Program.loadShader ⟨uninit, versionMaj, versionMin, glsl_version⟩ d fs
          GL_GEOMETRY_SHADER file st1
      | none => .ok (0, st1)) = .ok (g, st2))
    (hf : Program.loadShader ⟨uninit, versionMaj, versionMin, glsl_version⟩ d fs
      GL_FRAGMENT_SHADER fragmentFile st2 = .ok (f, st3)) :
    ∃ st5,
      Program.ctor d fs uninit glsl_version versionMaj versionMin vertexFile fragmentFile
          geometryFile st
        = .ok (⟨d.createProgram st3.calls, versionMaj, versionMin, glsl_version⟩, st5)
      ∧ GLCall.glLinkProgram (d.createProgram st3.calls) ∈ st5.calls
      ∧ (Program.linkProgram ⟨uninit, versionMaj, versionMin, glsl_version⟩ d v f g st3).1
          = decide (d.getProgramiv (linkCalls d v f g st3) (d.createProgram st3.calls)
              GL_LINK_STATUS ≠ 0)
      ∧ (d.getProgramiv (linkCalls d v f g st3) (d.createProgram st3.calls) GL_LINK_STATUS ≠ 0 →
          st5.out = st3.out)
      ∧ (d.getProgramiv (linkCalls d v f g st3) (d.createProgram st3.calls) GL_LINK_STATUS = 0 →
          st5.out = st3.out ++ Program.linkErrorMessage
            (d.getProgramInfoLog
              (linkCalls d v f g st3
                ++ [.glGetProgramiv (d.createProgram st3.calls) GL_LINK_STATUS])
              (d.createProgram st3.calls) 512))
      ∧ (∃ s, compileStatus ⟨uninit, versionMaj, versionMin, glsl_version⟩ d fs GL_VERTEX_SHADER
            vertexFile st = some s
          ∧ (s ≠ 0 → v = d.createShader st.calls GL_VERTEX_SHADER)
          ∧ (s = 0 → v = toGLuint (-1)
              ∧ Program.compileErrorMessage vertexFile
                  (compileLog ⟨uninit, versionMaj, versionMin, glsl_version⟩ d fs
                    GL_VERTEX_SHADER vertexFile st) <:+: st5.out))
      ∧ (∀ file, geometryFile = some file →
          ∃ s, compileStatus ⟨uninit, versionMaj, versionMin, glsl_version⟩ d fs
              GL_GEOMETRY_SHADER file st1 = some s
            ∧ (s ≠ 0 → g = d.createShader st1.calls GL_GEOMETRY_SHADER)
            ∧ (s = 0 → g = toGLuint (-1)
                ∧ Program.compileErrorMessage file
                    (compileLog ⟨uninit, versionMaj, versionMin, glsl_version⟩ d fs
                      GL_GEOMETRY_SHADER file st1) <:+: st5.out))
      ∧ (geometryFile = none → g = 0)
      ∧ (∃ s, compileStatus ⟨uninit, versionMaj, versionMin, glsl_version⟩ d fs
            GL_FRAGMENT_SHADER fragmentFile st2 = some s
          ∧ (s ≠ 0 → f = d.createShader st2.calls GL_FRAGMENT_SHADER)
          ∧ (s = 0 → f = toGLuint (-1)
              ∧ Program.compileErrorMessage fragmentFile
                  (compileLog ⟨uninit, versionMaj, versionMin, glsl_version⟩ d fs
                    GL_FRAGMENT_SHADER fragmentFile st2) <:+: st5.out)) := by
  have hctor := ctor_eq d fs uninit glsl_version versionMaj versionMin vertexFile fragmentFile
    geometryFile st v st1 g st2 f st3 hv hg hf
  obtain ⟨hv1, sv, hsv, hvok, hvfail⟩ := loadShader_ok_cases _ d fs _ _ st v st1 hv
  obtain ⟨hf1, sf, hsf, hfok, hffail⟩ := loadShader_ok_cases _ d fs _ _ st2 f st3 hf
  have hg1 : st1.out <+: st2.out := by
    cases geometryFile with
    | none =>
      simp only [Except.ok.injEq, Prod.mk.injEq] at hg
      rw [hg.2]
    | some file => exact (loadShader_ok_cases _ d fs _ _ st1 g st2 hg).1
  have hlink : st3.out <+: (Program.linkProgram ⟨uninit, versionMaj, versionMin, glsl_version⟩
      d v f g st3).2.2.out := by
    rw [linkProgram_eq]
    split
    · exact List.prefix_append _ _
    · exact List.prefix_refl _
  have hp : (Program.linkProgram ⟨uninit, versionMaj, versionMin, glsl_version⟩
      d v f g st3).2.1 = ⟨d.createProgram st3.calls, versionMaj, versionMin, glsl_version⟩ := by
    rw [linkProgram_eq]
    split <;> rfl
  rw [hp] at hctor
  refine ⟨_, hctor, ?_, ?_, ?_, ?_, ⟨sv, hsv, hvok, fun h0 => ⟨(hvfail h0).1, ?_⟩⟩, ?_, ?_,
    ⟨sf, hsf, hfok, fun h0 => ⟨(hffail h0).1, ?_⟩⟩⟩
  · rw [linkProgram_eq]
    by_cases hg0 : g = 0 <;> split <;> simp [linkCalls, hg0]
  · rw [linkProgram_eq]
    split <;> simp_all
  · intro hs
    rw [linkProgram_eq, if_neg hs]
  · intro hs
    rw [linkProgram_eq, if_pos hs]
  · exact (hvfail h0).2.trans (hg1.trans (hf1.trans hlink)).isInfix
  · intro file hfile
    subst hfile
    obtain ⟨-, sg, hsg, hgok, hgfail⟩ := loadShader_ok_cases _ d fs _ _ st1 g st2 hg
    exact ⟨sg, hsg, hgok, fun h0 => ⟨(hgfail h0).1,
      (hgfail h0).2.trans (hf1.trans hlink).isInfix⟩⟩
  · intro hnone
    subst hnone
    simp only [Except.ok.injEq, Prod.mk.injEq] at hg
    exact hg.1.symm
  · exact (hffail h0).2.trans hlink.isInfix

/-- Witness of C5: the vertex stage does not compile and the link fails; the
constructor returns all the same. -/
theorem ctor_link_outcome_witness :
    ∃ v st1 g st2 f st3,
      Program.loadShader ⟨0, 4, 6, "460".toList⟩ failDriver exampleFiles GL_VERTEX_SHADER
          "v.vert".toList ⟨[], [], 0⟩ = .ok (v, st1)
      ∧ (match (none : Option (List Char)) with
          | some file => Program.loadShader ⟨0, 4, 6, "460".toList⟩ failDriver exampleFiles
              GL_GEOMETRY_SHADER file st1
          | none => .ok (0, st1)) = .ok (g, st2)
      ∧ Program.loadShader ⟨0, 4, 6, "460".toList⟩ failDriver exampleFiles GL_FRAGMENT_SHADER
          "f.frag".toList st2 = .ok (f, st3)
      ∧ ∃ st5,
        Program.ctor failDriver exampleFiles 0 "460".toList 4 6 "v.vert".toList "f.frag".toList
            none ⟨[], [], 0⟩
          = .ok (⟨failDriver.createProgram st3.calls, 4, 6, "460".toList⟩, st5)
        ∧ GLCall.glLinkProgram (failDriver.createProgram st3.calls) ∈ st5.calls
        ∧ (Program.linkProgram ⟨0, 4, 6, "460".toList⟩ failDriver v f g st3).1
            = decide (failDriver.getProgramiv (linkCalls failDriver v f g st3)
                (failDriver.createProgram st3.calls) GL_LINK_STATUS ≠ 0)
        ∧ (failDriver.getProgramiv (linkCalls failDriver v f g st3)
              (failDriver.createProgram st3.calls) GL_LINK_STATUS ≠ 0 → st5.out = st3.out)
        ∧ (failDriver.getProgramiv (linkCalls failDriver v f g st3)
              (failDriver.createProgram st3.calls) GL_LINK_STATUS = 0 →
            st5.out = st3.out ++ Program.linkErrorMessage
              (failDriver.getProgramInfoLog
                (linkCalls failDriver v f g st3
                  ++ [.glGetProgramiv (failDriver.createProgram st3.calls) GL_LINK_STATUS])
                (failDriver.createProgram st3.calls) 512))
        ∧ (∃ s, compileStatus ⟨0, 4, 6, "460".toList⟩ failDriver exampleFiles GL_VERTEX_SHADER
              "v.vert".toList ⟨[], [], 0⟩ = some s
            ∧ (s ≠ 0 → v = failDriver.createShader [] GL_VERTEX_SHADER)
            ∧ (s = 0 → v = toGLuint (-1)
                ∧ Program.compileErrorMessage "v.vert".toList
                    (compileLog ⟨0, 4, 6, "460".toList⟩ failDriver exampleFiles
                      GL_VERTEX_SHADER "v.vert".toList ⟨[], [], 0⟩) <:+: st5.out))
        ∧ (∀ file, (none : Option (List Char)) = some file →
            ∃ s, compileStatus ⟨0, 4, 6, "460".toList⟩ failDriver exampleFiles
                GL_GEOMETRY_SHADER file st1 = some s
              ∧ (s ≠ 0 → g = failDriver.createShader st1.calls GL_GEOMETRY_SHADER)
              ∧ (s = 0 → g = toGLuint (-1)
                  ∧ Program.compileErrorMessage file
                      (compileLog ⟨0, 4, 6, "460".toList⟩ failDriver exampleFiles
                        GL_GEOMETRY_SHADER file st1) <:+: st5.out))
        ∧ ((none : Option (List Char)) = none → g = 0)
        ∧ (∃ s, compileStatus ⟨0, 4, 6, "460".toList⟩ failDriver exampleFiles
              GL_FRAGMENT_SHADER "f.frag".toList st2 = some s
            ∧ (s ≠ 0 → f = failDriver.createShader st2.calls GL_FRAGMENT_SHADER)
            ∧ (s = 0 → f = toGLuint (-1)
                ∧ Program.compileErrorMessage "f.frag".toList
                    (compileLog ⟨0, 4, 6, "460".toList⟩ failDriver exampleFiles
                      GL_FRAGMENT_SHADER "f.frag".toList st2) <:+: st5.out)) :=
  ⟨_, _, _, _, _, _, rfl, rfl, rfl,
    ctor_link_outcome failDriver exampleFiles 0 "460".toList 4 6 "v.vert".toList
      "f.frag".toList none ⟨[], [], 0⟩ _ _ _ _ _ _ rfl rfl rfl⟩

/-- C5 as stated fails in both halves. When the link fails, the constructor
still returns, and the object it built holds the id 9 of the program for which
the driver reports link status 0 at every moment; the failure is only printed.
When the vertex stage does not compile, the constructor returns as well, with
the sentinel attached to program 9 in place of the shader, and the object holds
that id. -/
theorem ctor_exposes_unlinked_program :
    (∃ p st5,
      Program.ctor linkFailDriver exampleFiles 0 "460".toList 4 6 "v.vert".toList
          "f.frag".toList none ⟨[], [], 0⟩ = .ok (p, st5)
      ∧ p.id = 9
      ∧ GLCall.glLinkProgram 9 ∈ st5.calls
      ∧ (∀ calls, linkFailDriver.getProgramiv calls 9 GL_LINK_STATUS = 0)
      ∧ st5.out = Program.linkErrorMessage "no main".toList)
    ∧ ∃ p st5,
      Program.ctor compileFailDriver exampleFiles 0 "460".toList 4 6 "v.vert".toList
          "f.frag".toList none ⟨[], [], 0⟩ = .ok (p, st5)
      ∧ p.id = 9
      ∧ compileStatus ⟨0, 4, 6, "460".toList⟩ compileFailDriver exampleFiles GL_VERTEX_SHADER
          "v.vert".toList ⟨[], [], 0⟩ = some 0
      ∧ GLCall.glAttachShader 9 4294967295 ∈ st5.calls
      ∧ GLCall.glLinkProgram 9 ∈ st5.calls
      ∧ st5.out = Program.compileErrorMessage "v.vert".toList "syntax error".toList :=
  ⟨⟨_, _, rfl, rfl, by decide, fun _ => rfl, by decide⟩,
    ⟨_, _, rfl, rfl, rfl, by decide, by decide, by decide⟩⟩

/-- C10, failing input. The vertex stage does not compile: loadShader returns
the sentinel 4294967295 in place of the handle 1 that glCreateShader gave, so
the constructor attaches and deletes 4294967295 and never deletes shader 1. -/
theorem ctor_leaks_failed_shader :
    ∃ p st5,
      Program.ctor compileFailDriver exampleFiles 0 "460".toList 4 6 "v.vert".toList
          "f.frag".toList none ⟨[], [], 0⟩ = .ok (p, st5)
      ∧ compileFailDriver.createShader [] GL_VERTEX_SHADER = 1
      ∧ GLCall.glCreateShader GL_VERTEX_SHADER ∈ st5.calls
      ∧ GLCall.glDeleteShader 1 ∉ st5.calls
      ∧ GLCall.glAttachShader p.id 4294967295 ∈ st5.calls
      ∧ GLCall.glDeleteShader 4294967295 ∈ st5.calls :=
  ⟨_, _, rfl, rfl, by decide, by decide, by decide, by decide⟩

end SDL2Workbench
